import Mathlib

/-!
Shallow embedding of the Lua HTTP filter of `src/source/common/http/filter/lua/lua_filter.h`
(namespace `Envoy::Http::Filter::Lua`).

The repository ships only the header. Declarations, inline member bodies
(`StreamHandleWrapper::onReset`, the `Filter::decode*/encode*` routing) and the
state enum are translated from that header directly; the out-of-line bodies
(`onData`, `onTrailers`, `start`, and the `lua*` script-facing calls) are not in
the repository, so those definitions are modelled from the specification, as
marked by their doc comments.

Bytes are `Nat`, a chunk is a list of bytes, header maps are ordered key/value
lists. The suspendable execution context is made explicit by letting every
operation return, next to the updated handle, the list of externally visible
effects it performs (resuming the coroutine with a typed input, cancelling or
issuing an upstream call, emitting an immediate response).
-/

namespace Envoy.Http.Filter.Lua

/-- Bytes of one data chunk flowing through the filter. -/
abbrev Chunk := List Nat

/-- A header map, modelled as an ordered list of key/value pairs. -/
abbrev HeaderTable := List (String × String)

/-- Whether a header map contains a given key (used for pseudo-header checks). -/
def hasHeader (t : HeaderTable) (key : String) : Bool :=
  t.any (fun p => p.1 == key)

/-- Pipeline directive returned by a headers callback. -/
inductive FilterHeadersStatus
  | Continue
  | StopIteration
deriving DecidableEq, Repr

/-- Pipeline directive returned by a data callback. -/
inductive FilterDataStatus
  | Continue
  | StopIterationAndBuffer
  | StopIterationNoBuffer
deriving DecidableEq, Repr

/-- Pipeline directive returned by a trailers callback. -/
inductive FilterTrailersStatus
  | Continue
  | StopIteration
deriving DecidableEq, Repr

/-- StreamHandleWrapper::State, lua_filter.h line 55. -/
inductive State
  | Running
  | WaitForBodyChunk
  | WaitForBody
  | WaitForTrailers
  | HttpCall
  | Responded
deriving DecidableEq, Repr

/-- Typed input with which a suspended execution context is resumed. -/
inductive ResumeInput
  | bodyVal (b : Chunk)
  | bodyChunk (c : Chunk) (endStream : Bool)
  | trailersVal (t : HeaderTable)
  | httpResult (headers : HeaderTable) (body : Option Chunk)
  | httpError (msg : String)
deriving DecidableEq, Repr

/-- Externally visible effect performed by a handle operation. -/
inductive Effect
  | Resume (i : ResumeInput)
  | CancelHttpRequest (id : Nat)
  | IssueHttpCall (id : Nat) (cluster : String) (headers : HeaderTable)
      (body : Option Chunk) (timeoutMs : Nat)
  | Respond (headers : HeaderTable) (body : Option Chunk)
  | ContinueIteration
deriving DecidableEq, Repr

/-- A value handed back to the script by one of the lua-facing calls. -/
inductive LuaValue
  | nil
  | buf (b : Chunk)
  | headerMap (t : HeaderTable)
  | iterator
deriving DecidableEq, Repr

/-- Outcome of one lua-facing call: an immediate return value, a suspension of
the execution context, or a script error raised at the call boundary. -/
inductive LuaReturn
  | ret (v : LuaValue)
  | yield
  | scriptError (msg : String)
deriving DecidableEq, Repr

/-- One direction of one stream: the StreamHandleWrapper of lua_filter.h lines
52-173. `state_`, `headers_`, `end_stream_`, `buffered_body_`, `trailers_` and
`http_request_` mirror the members declared at lines 158-172; `buffered_bytes_`
models the accumulating byte buffer the handle reaches through
FilterCallbacks::addData/bufferedBody. The outstanding upstream request is
identified by a numeric correlation id standing for the
AsyncClient::Request pointer. -/
structure StreamHandle where
  state_ : State := State.Running
  headers_ : HeaderTable := []
  end_stream_ : Bool := false
  buffered_body_ : Bool := false
  trailers_ : Option HeaderTable := none
  buffered_bytes_ : Chunk := []
  http_request_ : Option Nat := none
deriving DecidableEq, Repr

/-- Modelled from the spec: body of StreamHandleWrapper::onData (declared at
lua_filter.h line 61, body not in the repository). In `WaitForBodyChunk` the
chunk is delivered to the script by resuming it, nothing is retained; in
`WaitForBody` the chunk is appended to the accumulator and the handle stays
suspended (StopIteration, data buffered) until `end_stream` is true, at which
point the script is resumed with the full accumulated body; after `Responded`
the event is downgraded to a no-op and iteration stays stopped permanently
(StopIterationNoBuffer, nothing propagated); in any other non-waiting state
the data is passed through without resuming any context. -/
def onData (h : StreamHandle) (chunk : Chunk) (end_stream : Bool) :
    StreamHandle × FilterDataStatus × List Effect :=
  match h.state_ with
  | State.WaitForBodyChunk =>
      ({ h with state_ := State.Running, end_stream_ := end_stream },
       FilterDataStatus.Continue,
       [Effect.Resume (ResumeInput.bodyChunk chunk end_stream)])
  | State.WaitForBody =>
      if end_stream then
        ({ h with state_ := State.Running, end_stream_ := true,
                  buffered_bytes_ := h.buffered_bytes_ ++ chunk },
         FilterDataStatus.Continue,
         [Effect.Resume (ResumeInput.bodyVal (h.buffered_bytes_ ++ chunk))])
      else
        ({ h with buffered_bytes_ := h.buffered_bytes_ ++ chunk },
         FilterDataStatus.StopIterationAndBuffer, [])
  | State.Responded => (h, FilterDataStatus.StopIterationNoBuffer, [])
  | _ =>
      ({ h with end_stream_ := end_stream }, FilterDataStatus.Continue, [])

/-- Modelled from the spec: body of StreamHandleWrapper::onTrailers (declared
at lua_filter.h line 62, body not in the repository). If suspended in
`WaitForTrailers` the script is resumed with the trailers; after `Responded`
the event is a no-op and iteration stays stopped permanently (StopIteration,
nothing propagated); otherwise a reference is stored so a later trailers()
call can retrieve them without suspending. -/
def onTrailers (h : StreamHandle) (t : HeaderTable) :
    StreamHandle × FilterTrailersStatus × List Effect :=
  match h.state_ with
  | State.WaitForTrailers =>
      ({ h with state_ := State.Running, trailers_ := some t, end_stream_ := true },
       FilterTrailersStatus.Continue,
       [Effect.Resume (ResumeInput.trailersVal t)])
  | State.Responded => (h, FilterTrailersStatus.StopIteration, [])
  | _ =>
      ({ h with trailers_ := some t, end_stream_ := true },
       FilterTrailersStatus.Continue, [])

/-- StreamHandleWrapper::onReset, translated from lua_filter.h lines 64-69:
if an HTTP request is outstanding it is cancelled and the correlation is
cleared; nothing else happens. -/
def onReset (h : StreamHandle) : StreamHandle × List Effect :=
  match h.http_request_ with
  | some r => ({ h with http_request_ := none }, [Effect.CancelHttpRequest r])
  | none => (h, [])

/-- Modelled from the spec: body of StreamHandleWrapper::luaBody (declared at
lua_filter.h lines 105-112, body not in the repository). If end of stream was
already observed the call returns immediately, nil when no body was buffered;
otherwise it transitions to `WaitForBody` (forcing full buffering) and
suspends. Script-facing calls only run while the handle is `Running`. -/
def luaBody (h : StreamHandle) : StreamHandle × List Effect × LuaReturn :=
  if h.state_ ≠ State.Running then
    (h, [], LuaReturn.scriptError "handle not running")
  else if h.end_stream_ then
    if h.buffered_bytes_ = [] then (h, [], LuaReturn.ret LuaValue.nil)
    else (h, [], LuaReturn.ret (LuaValue.buf h.buffered_bytes_))
  else
    ({ h with state_ := State.WaitForBody, buffered_body_ := true },
     [], LuaReturn.yield)

/-- Modelled from the spec: body of StreamHandleWrapper::luaBodyChunks
(declared at lua_filter.h lines 114-119, body not in the repository). Returns
the iterator closure to the script without suspending or buffering. -/
def luaBodyChunks (h : StreamHandle) : StreamHandle × List Effect × LuaReturn :=
  if h.state_ ≠ State.Running then
    (h, [], LuaReturn.scriptError "handle not running")
  else
    (h, [], LuaReturn.ret LuaValue.iterator)

/-- Modelled from the spec: body of the closure
StreamHandleWrapper::luaBodyIterator (declared at lua_filter.h lines 134-137,
body not in the repository). Each advance suspends in `WaitForBodyChunk` until
the next chunk arrives; once the chunk marked end-of-stream has been delivered
the iterator returns nil, ending iteration. -/
def luaBodyIterator (h : StreamHandle) : StreamHandle × List Effect × LuaReturn :=
  if h.state_ ≠ State.Running then
    (h, [], LuaReturn.scriptError "handle not running")
  else if h.end_stream_ then
    (h, [], LuaReturn.ret LuaValue.nil)
  else
    ({ h with state_ := State.WaitForBodyChunk }, [], LuaReturn.yield)

/-- Modelled from the spec: body of StreamHandleWrapper::luaTrailers (declared
at lua_filter.h lines 121-125, body not in the repository). Stored trailers
are returned immediately; with end of stream observed and no trailers the call
returns nil immediately; otherwise it transitions to `WaitForTrailers` and
suspends. -/
def luaTrailers (h : StreamHandle) : StreamHandle × List Effect × LuaReturn :=
  if h.state_ ≠ State.Running then
    (h, [], LuaReturn.scriptError "handle not running")
  else
    match h.trailers_ with
    | some t => (h, [], LuaReturn.ret (LuaValue.headerMap t))
    | none =>
        if h.end_stream_ then (h, [], LuaReturn.ret LuaValue.nil)
        else ({ h with state_ := State.WaitForTrailers }, [], LuaReturn.yield)

/-- Modelled from the spec: body of StreamHandleWrapper::luaHttpCall (declared
at lua_filter.h lines 82-90, body not in the repository). A second call while
one is outstanding, a missing :method/:path/:authority pseudo-header, or an
unresolvable cluster each fail synchronously as a script error without
suspending and without recording a call; on success the request is issued, a
Pending Async Call is recorded and the handle suspends in `HttpCall`.
`clusters` stands for the cluster-manager collaborator (the set of resolvable
cluster names); `newId` is the fresh correlation id of the issued request. -/
def luaHttpCall (clusters : List String) (h : StreamHandle) (cluster : String)
    (hdrs : HeaderTable) (body : Option Chunk) (timeoutMs : Nat) (newId : Nat) :
    StreamHandle × List Effect × LuaReturn :=
  if h.state_ ≠ State.Running then
    (h, [], LuaReturn.scriptError "handle not running")
  else if h.http_request_.isSome then
    (h, [], LuaReturn.scriptError "only one outstanding HTTP call is allowed")
  else if !(hasHeader hdrs ":method" && hasHeader hdrs ":path" &&
            hasHeader hdrs ":authority") then
    (h, [], LuaReturn.scriptError "http call headers must include method path and authority")
  else if !(clusters.contains cluster) then
    (h, [], LuaReturn.scriptError "cluster not found")
  else
    ({ h with state_ := State.HttpCall, http_request_ := some newId },
     [Effect.IssueHttpCall newId cluster hdrs body timeoutMs],
     LuaReturn.yield)

/-- Modelled from the spec: body of StreamHandleWrapper::luaRespond (declared
at lua_filter.h lines 92-98, body not in the repository). Requires a :status
pseudo-header; the first invocation emits the immediate response through the
adapter and enters the terminal `Responded` state; once the handle is no
longer `Running` (in particular after `Responded`) the call emits nothing. -/
def luaRespond (h : StreamHandle) (hdrs : HeaderTable) (body : Option Chunk) :
    StreamHandle × List Effect × LuaReturn :=
  if h.state_ ≠ State.Running then
    (h, [], LuaReturn.ret LuaValue.nil)
  else if !(hasHeader hdrs ":status") then
    (h, [], LuaReturn.scriptError "respond headers must include status")
  else
    ({ h with state_ := State.Responded },
     [Effect.Respond hdrs body], LuaReturn.ret LuaValue.nil)

/-- Feed a list of chunks to the handle through onData, none of them marked
end-of-stream, collecting the returned pipeline directives and effects. -/
def feedBody : StreamHandle → List Chunk → StreamHandle × List FilterDataStatus × List Effect
  | h, [] => (h, [], [])
  | h, c :: cs =>
      let r := onData h c false
      let rest := feedBody r.1 cs
      (rest.1, r.2.1 :: rest.2.1, r.2.2 ++ rest.2.2)

/-- The chunks a run of effects yields to the script, in order. -/
def yieldedChunks (effs : List Effect) : List (Chunk × Bool) :=
  effs.filterMap fun eff =>
    match eff with
    | Effect.Resume (ResumeInput.bodyChunk c e) => some (c, e)
    | _ => none

/-- Drive the body-chunk iteration loop: for each delivered `(chunk, eos)`
pair, the script advances the iterator (suspending the handle) and the
pipeline then delivers the chunk through onData; collects every chunk yielded
to the script. -/
def driveChunks : StreamHandle → List (Chunk × Bool) → StreamHandle × List (Chunk × Bool)
  | h, [] => (h, [])
  | h, (c, e) :: rest =>
      let h1 := (luaBodyIterator h).1
      let r := onData h1 c e
      let more := driveChunks r.1 rest
      (more.1, yieldedChunks r.2.2 ++ more.2)

/-- The filter orchestrator, lua_filter.h lines 201-286: one stream handle per
direction (`request_stream_wrapper_`, `response_stream_wrapper_`, lines
283-284, created on the first event for the direction) and the destroyed
flag. -/
structure Filter where
  request_stream_wrapper_ : Option StreamHandle := none
  response_stream_wrapper_ : Option StreamHandle := none
  destroyed_ : Bool := false
deriving DecidableEq, Repr

/-- Modelled from the spec: body of Filter::doHeaders (declared at lua_filter.h
lines 275-276, body not in the repository). On the first headers event for the
direction a fresh handle is created and the script entry point is started on
it; `script` stands for driving the compiled entry point (coroutine start)
until it yields or completes. -/
def doHeaders (handle : Option StreamHandle)
    (script : StreamHandle → StreamHandle × FilterHeadersStatus × List Effect)
    (headers : HeaderTable) (end_stream : Bool) :
    Option StreamHandle × FilterHeadersStatus × List Effect :=
  match handle with
  | some hh => (some hh, FilterHeadersStatus.Continue, [])
  | none =>
      let r := script { headers_ := headers, end_stream_ := end_stream }
      (some r.1, r.2)

/-- Modelled from the spec: body of Filter::doData (declared at lua_filter.h
line 277, body not in the repository). Routes the data event to the handle of
the direction it was called with. -/
def doData (handle : Option StreamHandle) (chunk : Chunk) (end_stream : Bool) :
    Option StreamHandle × FilterDataStatus × List Effect :=
  match handle with
  | none => (none, FilterDataStatus.Continue, [])
  | some hh =>
      let r := onData hh chunk end_stream
      (some r.1, r.2)

/-- Modelled from the spec: body of Filter::doTrailers (declared at
lua_filter.h line 278, body not in the repository). Routes the trailers event
to the handle of the direction it was called with. -/
def doTrailers (handle : Option StreamHandle) (t : HeaderTable) :
    Option StreamHandle × FilterTrailersStatus × List Effect :=
  match handle with
  | none => (none, FilterTrailersStatus.Continue, [])
  | some hh =>
      let r := onTrailers hh t
      (some r.1, r.2)

/-- Filter::decodeHeaders, lua_filter.h lines 213-216: runs doHeaders on the
request stream wrapper with the request entry point. -/
def Filter.decodeHeaders (f : Filter)
    (script : StreamHandle → StreamHandle × FilterHeadersStatus × List Effect)
    (headers : HeaderTable) (end_stream : Bool) :
    Filter × FilterHeadersStatus × List Effect :=
  let r := doHeaders f.request_stream_wrapper_ script headers end_stream
  ({ f with request_stream_wrapper_ := r.1 }, r.2)

/-- Filter::decodeData, lua_filter.h lines 217-219: runs doData on the request
stream wrapper. -/
def Filter.decodeData (f : Filter) (chunk : Chunk) (end_stream : Bool) :
    Filter × FilterDataStatus × List Effect :=
  let r := doData f.request_stream_wrapper_ chunk end_stream
  ({ f with request_stream_wrapper_ := r.1 }, r.2)

/-- Filter::decodeTrailers, lua_filter.h lines 220-222: runs doTrailers on the
request stream wrapper. -/
def Filter.decodeTrailers (f : Filter) (t : HeaderTable) :
    Filter × FilterTrailersStatus × List Effect :=
  let r := doTrailers f.request_stream_wrapper_ t
  ({ f with request_stream_wrapper_ := r.1 }, r.2)

/-- Filter::encodeHeaders, lua_filter.h lines 228-231: runs doHeaders on the
response stream wrapper with the response entry point. -/
def Filter.encodeHeaders (f : Filter)
    (script : StreamHandle → StreamHandle × FilterHeadersStatus × List Effect)
    (headers : HeaderTable) (end_stream : Bool) :
    Filter × FilterHeadersStatus × List Effect :=
  let r := doHeaders f.response_stream_wrapper_ script headers end_stream
  ({ f with response_stream_wrapper_ := r.1 }, r.2)

/-- Filter::encodeData, lua_filter.h lines 232-234: runs doData on the response
stream wrapper. -/
def Filter.encodeData (f : Filter) (chunk : Chunk) (end_stream : Bool) :
    Filter × FilterDataStatus × List Effect :=
  let r := doData f.response_stream_wrapper_ chunk end_stream
  ({ f with response_stream_wrapper_ := r.1 }, r.2)

/-- Filter::encodeTrailers, lua_filter.h lines 235-237: runs doTrailers on the
response stream wrapper. -/
def Filter.encodeTrailers (f : Filter) (t : HeaderTable) :
    Filter × FilterTrailersStatus × List Effect :=
  let r := doTrailers f.response_stream_wrapper_ t
  ({ f with response_stream_wrapper_ := r.1 }, r.2)

/-- While the handle is suspended in `WaitForBody`, feeding chunks that are not
end-of-stream appends each to the accumulator, returns StopIterationAndBuffer
for each, resumes nothing, and leaves the handle suspended in `WaitForBody`. -/
theorem feedBody_waitForBody (h : StreamHandle) (cs : List Chunk)
    (hst : h.state_ = State.WaitForBody) :
    feedBody h cs =
      ({ h with buffered_bytes_ := h.buffered_bytes_ ++ cs.flatten },
       List.replicate cs.length FilterDataStatus.StopIterationAndBuffer, []) := by
  induction cs generalizing h with
  | nil => simp [feedBody]
  | cons c cs ih =>
      obtain ⟨st, hd, es, bb, tr, bytes, hr⟩ := h
      simp only at hst
      subst hst
      simp [feedBody, onData, ih, List.append_assoc, List.replicate_succ]

/-- C1: for every sequence of chunks delivered by onData while the handle is
suspended in `WaitForBody`, each chunk is buffered and StopIteration is
returned with no resumption; the chunk carrying end-of-stream resumes the
script exactly once, with a body equal to the concatenation, in arrival order,
of all delivered chunks. -/
theorem onData_waitForBody_concatenates (h : StreamHandle) (cs : List Chunk) (cf : Chunk)
    (hst : h.state_ = State.WaitForBody) :
    (feedBody h cs).2.1 = List.replicate cs.length FilterDataStatus.StopIterationAndBuffer ∧
    (feedBody h cs).2.2 = [] ∧
    (feedBody h cs).1.state_ = State.WaitForBody ∧
    (feedBody h cs).1.buffered_bytes_ = h.buffered_bytes_ ++ cs.flatten ∧
    (onData (feedBody h cs).1 cf true).2.2 =
      [Effect.Resume (ResumeInput.bodyVal (h.buffered_bytes_ ++ cs.flatten ++ cf))] ∧
    (onData (feedBody h cs).1 cf true).1.state_ = State.Running := by
  obtain ⟨st, hd, es, bb, tr, bytes, hr⟩ := h
  simp only at hst
  subst hst
  rw [feedBody_waitForBody _ _ rfl]
  simp [onData, List.append_assoc]

/-- Concrete run of onData_waitForBody_concatenates: chunks [1,2] and [3]
buffered, final chunk [4] resumes with body [1,2,3,4]. -/
theorem onData_waitForBody_concatenates_witness :
    ({ state_ := State.WaitForBody } : StreamHandle).state_ = State.WaitForBody ∧
    ((feedBody { state_ := State.WaitForBody } [[1, 2], [3]]).2.1 =
        List.replicate 2 FilterDataStatus.StopIterationAndBuffer ∧
     (feedBody { state_ := State.WaitForBody } [[1, 2], [3]]).2.2 = [] ∧
     (feedBody { state_ := State.WaitForBody } [[1, 2], [3]]).1.state_ = State.WaitForBody ∧
     (feedBody { state_ := State.WaitForBody } [[1, 2], [3]]).1.buffered_bytes_ =
        [] ++ [[1, 2], [3]].flatten ∧
     (onData (feedBody { state_ := State.WaitForBody } [[1, 2], [3]]).1 [4] true).2.2 =
        [Effect.Resume (ResumeInput.bodyVal ([] ++ [[1, 2], [3]].flatten ++ [4]))] ∧
     (onData (feedBody { state_ := State.WaitForBody } [[1, 2], [3]]).1 [4] true).1.state_ =
        State.Running) :=
  ⟨by decide, onData_waitForBody_concatenates { state_ := State.WaitForBody } [[1, 2], [3]] [4]
      (by decide)⟩

/-- C2: the first respond invocation on a running handle with a :status
pseudo-header emits the immediate response exactly once and enters
`Responded`; every further respond invocation on that handle (and on any
handle already in `Responded`) emits no response and changes nothing. -/
theorem luaRespond_at_most_once (h : StreamHandle) (hdrs hdrs2 : HeaderTable)
    (b b2 : Option Chunk)
    (hst : h.state_ = State.Running) (hstatus : hasHeader hdrs ":status" = true) :
    (luaRespond h hdrs b).2.1 = [Effect.Respond hdrs b] ∧
    (luaRespond h hdrs b).1.state_ = State.Responded ∧
    (luaRespond (luaRespond h hdrs b).1 hdrs2 b2).2.1 = [] ∧
    (luaRespond (luaRespond h hdrs b).1 hdrs2 b2).1 = (luaRespond h hdrs b).1 ∧
    (∀ h2 : StreamHandle, h2.state_ = State.Responded →
      (luaRespond h2 hdrs2 b2).2.1 = [] ∧ (luaRespond h2 hdrs2 b2).1 = h2) := by
  obtain ⟨st, hd, es, bb, tr, bytes, hr⟩ := h
  simp only at hst
  subst hst
  refine ⟨?_, ?_, ?_, ?_, ?_⟩
  · simp [luaRespond, hstatus]
  · simp [luaRespond, hstatus]
  · simp [luaRespond, hstatus]
  · simp [luaRespond, hstatus]
  · intro h2 h2st
    obtain ⟨st2, hd2, es2, bb2, tr2, bytes2, hr2⟩ := h2
    simp only at h2st
    subst h2st
    simp [luaRespond]

/-- Concrete run of luaRespond_at_most_once: a fresh handle responds once with
status 503, and the second invocation is a no-op. -/
theorem luaRespond_at_most_once_witness :
    ({} : StreamHandle).state_ = State.Running ∧
    hasHeader [(":status", "503")] ":status" = true ∧
    ((luaRespond {} [(":status", "503")] none).2.1 =
        [Effect.Respond [(":status", "503")] none] ∧
     (luaRespond {} [(":status", "503")] none).1.state_ = State.Responded ∧
     (luaRespond (luaRespond {} [(":status", "503")] none).1 [(":status", "200")] none).2.1 = [] ∧
     (luaRespond (luaRespond {} [(":status", "503")] none).1 [(":status", "200")] none).1 =
        (luaRespond {} [(":status", "503")] none).1 ∧
     (∀ h2 : StreamHandle, h2.state_ = State.Responded →
       (luaRespond h2 [(":status", "200")] none).2.1 = [] ∧
       (luaRespond h2 [(":status", "200")] none).1 = h2)) :=
  ⟨by decide, by decide,
    luaRespond_at_most_once {} [(":status", "503")] [(":status", "200")] none none
      (by decide) (by decide)⟩

/-- C6: onReset clears the correlation, cancels the outstanding call exactly
once when there is one and otherwise does nothing, never resumes the
execution context, and is idempotent: a second onReset changes nothing. -/
theorem onReset_idempotent (h : StreamHandle) :
    (onReset h).1 = { h with http_request_ := none } ∧
    (onReset h).2 = (match h.http_request_ with
      | some r => [Effect.CancelHttpRequest r]
      | none => []) ∧
    (∀ e ∈ (onReset h).2, ∀ i, e ≠ Effect.Resume i) ∧
    onReset (onReset h).1 = ((onReset h).1, []) := by
  obtain ⟨st, hd, es, bb, tr, bytes, hr⟩ := h
  cases hr with
  | none => simp [onReset]
  | some r => simp [onReset]

/-- Concrete run of onReset_idempotent on a handle with outstanding call 7. -/
theorem onReset_idempotent_witness :
    (onReset { http_request_ := some 7 }).1 =
      { ({ http_request_ := some 7 } : StreamHandle) with http_request_ := none } ∧
    (onReset { http_request_ := some 7 }).2 =
      (match ({ http_request_ := some 7 } : StreamHandle).http_request_ with
        | some r => [Effect.CancelHttpRequest r]
        | none => []) ∧
    (∀ e ∈ (onReset { http_request_ := some 7 }).2, ∀ i, e ≠ Effect.Resume i) ∧
    onReset (onReset { http_request_ := some 7 }).1 =
      ((onReset { http_request_ := some 7 }).1, []) :=
  onReset_idempotent { http_request_ := some 7 }

/-- C3: a second httpCall issued while one is already outstanding fails as a
script error; the handle, its correlation to the first call included, is left
untouched and no effect (no cancellation, no new request) is performed. -/
theorem luaHttpCall_single_outstanding (clusters : List String) (h : StreamHandle)
    (cluster : String) (hdrs : HeaderTable) (b : Option Chunk) (tm newId r : Nat)
    (hst : h.state_ = State.Running) (hreq : h.http_request_ = some r) :
    luaHttpCall clusters h cluster hdrs b tm newId =
      (h, [], LuaReturn.scriptError "only one outstanding HTTP call is allowed") ∧
    (luaHttpCall clusters h cluster hdrs b tm newId).1.http_request_ = some r := by
  obtain ⟨st, hd, es, bb, tr, bytes, hr⟩ := h
  simp only at hst hreq
  subst hst
  subst hreq
  simp [luaHttpCall]

/-- Concrete run of luaHttpCall_single_outstanding: handle with outstanding
call 5 rejects a second, fully valid call. -/
theorem luaHttpCall_single_outstanding_witness :
    ({ http_request_ := some 5 } : StreamHandle).state_ = State.Running ∧
    ({ http_request_ := some 5 } : StreamHandle).http_request_ = some 5 ∧
    (luaHttpCall ["web"] { http_request_ := some 5 } "web"
        [(":method", "GET"), (":path", "/"), (":authority", "a")] none 100 6 =
      ({ http_request_ := some 5 },
        [], LuaReturn.scriptError "only one outstanding HTTP call is allowed") ∧
     (luaHttpCall ["web"] { http_request_ := some 5 } "web"
        [(":method", "GET"), (":path", "/"), (":authority", "a")] none 100 6).1.http_request_ =
       some 5) :=
  ⟨by decide, by decide,
    luaHttpCall_single_outstanding ["web"] { http_request_ := some 5 } "web"
      [(":method", "GET"), (":path", "/"), (":authority", "a")] none 100 6 5
      (by decide) (by decide)⟩

/-- C4: an httpCall whose headers miss one of the :method/:path/:authority
pseudo-headers, or whose cluster does not resolve, fails synchronously as a
script error: no suspension, no transition into HttpCall, no pending call
recorded, no effect performed. -/
theorem luaHttpCall_validation_fails_sync (clusters : List String) (h : StreamHandle)
    (cluster : String) (hdrs : HeaderTable) (b : Option Chunk) (tm newId : Nat)
    (hst : h.state_ = State.Running) (hreq : h.http_request_ = none)
    (hbad : hasHeader hdrs ":method" = false ∨ hasHeader hdrs ":path" = false ∨
            hasHeader hdrs ":authority" = false ∨ clusters.contains cluster = false) :
    (luaHttpCall clusters h cluster hdrs b tm newId).1 = h ∧
    (luaHttpCall clusters h cluster hdrs b tm newId).2.1 = [] ∧
    (∃ m, (luaHttpCall clusters h cluster hdrs b tm newId).2.2 = LuaReturn.scriptError m) ∧
    (luaHttpCall clusters h cluster hdrs b tm newId).1.state_ ≠ State.HttpCall ∧
    (luaHttpCall clusters h cluster hdrs b tm newId).1.http_request_ = none := by
  obtain ⟨st, hd, es, bb, tr, bytes, hr⟩ := h
  simp only at hst hreq
  subst hst
  subst hreq
  rcases hbad with hb | hb | hb | hb
  · simp [luaHttpCall, hb]
  · simp [luaHttpCall, hb]
  · simp [luaHttpCall, hb]
  · have hb2 : cluster ∉ clusters := by simpa using hb
    by_cases hm : (hasHeader hdrs ":method" && hasHeader hdrs ":path" &&
        hasHeader hdrs ":authority") = true
    · simp [luaHttpCall, hm, hb2]
    · simp [luaHttpCall, hm, hb2]

/-- Concrete run of luaHttpCall_validation_fails_sync: headers without the
:authority pseudo-header fail synchronously with no recorded call. -/
theorem luaHttpCall_validation_fails_sync_witness :
    ({} : StreamHandle).state_ = State.Running ∧
    ({} : StreamHandle).http_request_ = none ∧
    hasHeader [(":method", "GET"), (":path", "/")] ":authority" = false ∧
    ((luaHttpCall ["web"] {} "web" [(":method", "GET"), (":path", "/")] none 100 1).1 =
        ({} : StreamHandle) ∧
     (luaHttpCall ["web"] {} "web" [(":method", "GET"), (":path", "/")] none 100 1).2.1 = [] ∧
     (∃ m, (luaHttpCall ["web"] {} "web" [(":method", "GET"), (":path", "/")] none 100 1).2.2 =
        LuaReturn.scriptError m) ∧
     (luaHttpCall ["web"] {} "web" [(":method", "GET"), (":path", "/")] none 100 1).1.state_ ≠
        State.HttpCall ∧
     (luaHttpCall ["web"] {} "web" [(":method", "GET"), (":path", "/")] none 100 1).1.http_request_ =
        none) :=
  ⟨by decide, by decide, by decide,
    luaHttpCall_validation_fails_sync ["web"] {} "web" [(":method", "GET"), (":path", "/")]
      none 100 1 (by decide) (by decide) (Or.inr (Or.inr (Or.inl (by decide))))⟩

/-- C5: Running is the initial state and Responded is terminal: every
pipeline event and every script-facing call applied to a handle in
`Responded` leaves the handle unchanged and performs no effect, neither
mutation nor resumption; data and trailers arriving after `Responded` are
downgraded to no-ops that keep iteration stopped (a StopIteration directive)
rather than propagated. -/
theorem responded_is_terminal (h : StreamHandle) (c : Chunk) (e : Bool)
    (t hdrs : HeaderTable) (b : Option Chunk) (clusters : List String) (cl : String)
    (tm newId : Nat)
    (hst : h.state_ = State.Responded) :
    ({} : StreamHandle).state_ = State.Running ∧
    onData h c e = (h, FilterDataStatus.StopIterationNoBuffer, []) ∧
    onTrailers h t = (h, FilterTrailersStatus.StopIteration, []) ∧
    (luaBody h).1 = h ∧ (luaBody h).2.1 = [] ∧
    (luaBodyChunks h).1 = h ∧ (luaBodyChunks h).2.1 = [] ∧
    (luaBodyIterator h).1 = h ∧ (luaBodyIterator h).2.1 = [] ∧
    (luaTrailers h).1 = h ∧ (luaTrailers h).2.1 = [] ∧
    (luaRespond h hdrs b).1 = h ∧ (luaRespond h hdrs b).2.1 = [] ∧
    (luaHttpCall clusters h cl hdrs b tm newId).1 = h ∧
    (luaHttpCall clusters h cl hdrs b tm newId).2.1 = [] := by
  obtain ⟨st, hd, es, bb, tr, bytes, hr⟩ := h
  simp only at hst
  subst hst
  simp [onData, onTrailers, luaBody, luaBodyChunks, luaBodyIterator, luaTrailers,
        luaRespond, luaHttpCall]

/-- Concrete run of responded_is_terminal on a responded handle. -/
theorem responded_is_terminal_witness :
    ({ state_ := State.Responded } : StreamHandle).state_ = State.Responded ∧
    (({} : StreamHandle).state_ = State.Running ∧
     onData { state_ := State.Responded } [1] true =
       ({ state_ := State.Responded }, FilterDataStatus.StopIterationNoBuffer, []) ∧
     onTrailers { state_ := State.Responded } [("k", "v")] =
       ({ state_ := State.Responded }, FilterTrailersStatus.StopIteration, []) ∧
     (luaBody { state_ := State.Responded }).1 = { state_ := State.Responded } ∧
     (luaBody { state_ := State.Responded }).2.1 = [] ∧
     (luaBodyChunks { state_ := State.Responded }).1 = { state_ := State.Responded } ∧
     (luaBodyChunks { state_ := State.Responded }).2.1 = [] ∧
     (luaBodyIterator { state_ := State.Responded }).1 = { state_ := State.Responded } ∧
     (luaBodyIterator { state_ := State.Responded }).2.1 = [] ∧
     (luaTrailers { state_ := State.Responded }).1 = { state_ := State.Responded } ∧
     (luaTrailers { state_ := State.Responded }).2.1 = [] ∧
     (luaRespond { state_ := State.Responded } [(":status", "200")] none).1 =
       { state_ := State.Responded } ∧
     (luaRespond { state_ := State.Responded } [(":status", "200")] none).2.1 = [] ∧
     (luaHttpCall ["web"] { state_ := State.Responded } "web" [(":status", "200")] none 100 1).1 =
       { state_ := State.Responded } ∧
     (luaHttpCall ["web"] { state_ := State.Responded } "web" [(":status", "200")] none 100 1).2.1 =
       []) :=
  ⟨by decide,
    responded_is_terminal { state_ := State.Responded } [1] true [("k", "v")]
      [(":status", "200")] none ["web"] "web" 100 1 (by decide)⟩

/-- C7: body() on a running handle returns immediately, without suspending,
when end of stream was already observed (nil when nothing was buffered), and
in every other case transitions the handle to `WaitForBody` and suspends. -/
theorem luaBody_immediate_or_suspend (h : StreamHandle)
    (hst : h.state_ = State.Running) :
    (h.end_stream_ = true →
       (luaBody h).1 = h ∧ (luaBody h).2.2 ≠ LuaReturn.yield ∧ (luaBody h).2.1 = [] ∧
       (h.buffered_bytes_ = [] → (luaBody h).2.2 = LuaReturn.ret LuaValue.nil)) ∧
    (h.end_stream_ = false →
       (luaBody h).1.state_ = State.WaitForBody ∧ (luaBody h).2.2 = LuaReturn.yield) := by
  obtain ⟨st, hd, es, bb, tr, bytes, hr⟩ := h
  simp only at hst
  subst hst
  constructor
  · intro he
    simp only at he
    subst he
    by_cases hbb : bytes = []
    · simp [luaBody, hbb]
    · simp [luaBody, hbb]
  · intro he
    simp only at he
    subst he
    simp [luaBody]

/-- Concrete run of luaBody_immediate_or_suspend on a handle with end of
stream observed and an empty buffer: immediate nil, no suspension. -/
theorem luaBody_immediate_or_suspend_witness :
    ({ end_stream_ := true } : StreamHandle).state_ = State.Running ∧
    ((({ end_stream_ := true } : StreamHandle).end_stream_ = true →
       (luaBody { end_stream_ := true }).1 = ({ end_stream_ := true } : StreamHandle) ∧
       (luaBody { end_stream_ := true }).2.2 ≠ LuaReturn.yield ∧
       (luaBody { end_stream_ := true }).2.1 = [] ∧
       (({ end_stream_ := true } : StreamHandle).buffered_bytes_ = [] →
         (luaBody { end_stream_ := true }).2.2 = LuaReturn.ret LuaValue.nil)) ∧
     (({ end_stream_ := true } : StreamHandle).end_stream_ = false →
       (luaBody { end_stream_ := true }).1.state_ = State.WaitForBody ∧
       (luaBody { end_stream_ := true }).2.2 = LuaReturn.yield)) :=
  ⟨by decide, luaBody_immediate_or_suspend { end_stream_ := true } (by decide)⟩

/-- Driving the body-chunk loop over a chunk sequence whose last element alone
carries end-of-stream delivers every chunk to the script and ends with the
handle running, end of stream observed, and everything else unchanged. -/
theorem driveChunks_yields (h : StreamHandle) (cs : List Chunk) (cl : Chunk)
    (hst : h.state_ = State.Running) (he : h.end_stream_ = false) :
    driveChunks h (cs.map (fun c => (c, false)) ++ [(cl, true)]) =
      ({ h with end_stream_ := true }, cs.map (fun c => (c, false)) ++ [(cl, true)]) := by
  induction cs generalizing h with
  | nil =>
      obtain ⟨st, hd, es, bb, tr, bytes, hr⟩ := h
      simp only at hst he
      subst hst
      subst he
      simp [driveChunks, luaBodyIterator, onData, yieldedChunks]
  | cons c cs ih =>
      obtain ⟨st, hd, es, bb, tr, bytes, hr⟩ := h
      simp only at hst he
      subst hst
      subst he
      simp [driveChunks, luaBodyIterator, onData, yieldedChunks, ih]

/-- C8: the iterator returned by bodyChunks() yields exactly once per chunk,
in arrival order; each advance suspends the handle in `WaitForBodyChunk`;
iteration ends exactly after the chunk marked end-of-stream (the next advance
returns nil); and no chunk is retained in the buffer. -/
theorem bodyChunks_iterates_in_order (h : StreamHandle) (cs : List Chunk) (cl : Chunk)
    (hst : h.state_ = State.Running) (he : h.end_stream_ = false) :
    luaBodyChunks h = (h, [], LuaReturn.ret LuaValue.iterator) ∧
    (luaBodyIterator h).1.state_ = State.WaitForBodyChunk ∧
    (luaBodyIterator h).2.2 = LuaReturn.yield ∧
    (driveChunks h (cs.map (fun c => (c, false)) ++ [(cl, true)])).2 =
      cs.map (fun c => (c, false)) ++ [(cl, true)] ∧
    (driveChunks h (cs.map (fun c => (c, false)) ++ [(cl, true)])).1 =
      { h with end_stream_ := true } ∧
    (driveChunks h (cs.map (fun c => (c, false)) ++ [(cl, true)])).1.buffered_bytes_ =
      h.buffered_bytes_ ∧
    (luaBodyIterator (driveChunks h (cs.map (fun c => (c, false)) ++ [(cl, true)])).1).2.2 =
      LuaReturn.ret LuaValue.nil := by
  obtain ⟨st, hd0, es, bb, tr, bytes, hr⟩ := h
  simp only at hst he
  subst hst
  subst he
  rw [driveChunks_yields _ cs cl rfl rfl]
  simp [luaBodyChunks, luaBodyIterator]

/-- Concrete run of bodyChunks_iterates_in_order: chunks [1], [2] and the
final chunk [3] are yielded once each, in order, with nothing buffered. -/
theorem bodyChunks_iterates_in_order_witness :
    ({} : StreamHandle).state_ = State.Running ∧
    ({} : StreamHandle).end_stream_ = false ∧
    (luaBodyChunks {} = ({}, [], LuaReturn.ret LuaValue.iterator) ∧
     (luaBodyIterator {}).1.state_ = State.WaitForBodyChunk ∧
     (luaBodyIterator {}).2.2 = LuaReturn.yield ∧
     (driveChunks {} ([[1], [2]].map (fun c => (c, false)) ++ [([3], true)])).2 =
       [[1], [2]].map (fun c => (c, false)) ++ [([3], true)] ∧
     (driveChunks {} ([[1], [2]].map (fun c => (c, false)) ++ [([3], true)])).1 =
       { ({} : StreamHandle) with end_stream_ := true } ∧
     (driveChunks {} ([[1], [2]].map (fun c => (c, false)) ++ [([3], true)])).1.buffered_bytes_ =
       ({} : StreamHandle).buffered_bytes_ ∧
     (luaBodyIterator
        (driveChunks {} ([[1], [2]].map (fun c => (c, false)) ++ [([3], true)])).1).2.2 =
       LuaReturn.ret LuaValue.nil) :=
  ⟨by decide, by decide, bodyChunks_iterates_in_order {} [[1], [2]] [3] (by decide) (by decide)⟩

/-- C9: trailers() on a running handle returns stored trailers immediately,
returns nil immediately when end of stream was observed with no trailers, and
otherwise suspends in `WaitForTrailers`; dually onTrailers resumes the script
with the trailers exactly when the handle waits in `WaitForTrailers`, and in
any other non-terminal state stores them so that a later trailers() call
returns them without suspending. -/
theorem trailers_resolution (h h2 : StreamHandle) (t : HeaderTable)
    (hst : h.state_ = State.Running) :
    (∀ trs, h.trailers_ = some trs →
       luaTrailers h = (h, [], LuaReturn.ret (LuaValue.headerMap trs))) ∧
    (h.trailers_ = none → h.end_stream_ = true →
       luaTrailers h = (h, [], LuaReturn.ret LuaValue.nil)) ∧
    (h.trailers_ = none → h.end_stream_ = false →
       (luaTrailers h).1.state_ = State.WaitForTrailers ∧
       (luaTrailers h).2.2 = LuaReturn.yield) ∧
    (h2.state_ = State.WaitForTrailers →
       (onTrailers h2 t).2.2 = [Effect.Resume (ResumeInput.trailersVal t)] ∧
       (onTrailers h2 t).1.state_ = State.Running) ∧
    (h2.state_ ≠ State.WaitForTrailers → h2.state_ ≠ State.Responded →
       (onTrailers h2 t).2.2 = [] ∧ (onTrailers h2 t).1.trailers_ = some t ∧
       ((onTrailers h2 t).1.state_ = State.Running →
         luaTrailers (onTrailers h2 t).1 =
           ((onTrailers h2 t).1, [], LuaReturn.ret (LuaValue.headerMap t)))) := by
  obtain ⟨st, hd, es, bb, tr, bytes, hr⟩ := h
  obtain ⟨st2, hd2, es2, bb2, tr2, bytes2, hr2⟩ := h2
  simp only at hst
  subst hst
  refine ⟨?_, ?_, ?_, ?_, ?_⟩
  · intro trs htr
    simp only at htr
    subst htr
    simp [luaTrailers]
  · intro htr hes
    simp only at htr hes
    subst htr
    subst hes
    simp [luaTrailers]
  · intro htr hes
    simp only at htr hes
    subst htr
    subst hes
    simp [luaTrailers]
  · intro h2st
    simp only at h2st
    subst h2st
    simp [onTrailers]
  · intro hne hnr
    simp only at hne hnr
    cases st2 <;> simp_all [onTrailers, luaTrailers]

/-- Concrete run of trailers_resolution: a running handle with no trailers and
stream still open suspends; a handle waiting in WaitForTrailers is resumed
with the delivered trailers. -/
theorem trailers_resolution_witness :
    ({} : StreamHandle).state_ = State.Running ∧
    ((∀ trs, ({} : StreamHandle).trailers_ = some trs →
       luaTrailers {} = ({}, [], LuaReturn.ret (LuaValue.headerMap trs))) ∧
     (({} : StreamHandle).trailers_ = none → ({} : StreamHandle).end_stream_ = true →
       luaTrailers {} = ({}, [], LuaReturn.ret LuaValue.nil)) ∧
     (({} : StreamHandle).trailers_ = none → ({} : StreamHandle).end_stream_ = false →
       (luaTrailers {}).1.state_ = State.WaitForTrailers ∧
       (luaTrailers {}).2.2 = LuaReturn.yield) ∧
     (({ state_ := State.WaitForTrailers } : StreamHandle).state_ = State.WaitForTrailers →
       (onTrailers { state_ := State.WaitForTrailers } [("grpc-status", "0")]).2.2 =
         [Effect.Resume (ResumeInput.trailersVal [("grpc-status", "0")])] ∧
       (onTrailers { state_ := State.WaitForTrailers } [("grpc-status", "0")]).1.state_ =
         State.Running) ∧
     (({ state_ := State.WaitForTrailers } : StreamHandle).state_ ≠ State.WaitForTrailers →
      ({ state_ := State.WaitForTrailers } : StreamHandle).state_ ≠ State.Responded →
       (onTrailers { state_ := State.WaitForTrailers } [("grpc-status", "0")]).2.2 = [] ∧
       (onTrailers { state_ := State.WaitForTrailers } [("grpc-status", "0")]).1.trailers_ =
         some [("grpc-status", "0")] ∧
       ((onTrailers { state_ := State.WaitForTrailers } [("grpc-status", "0")]).1.state_ =
           State.Running →
         luaTrailers (onTrailers { state_ := State.WaitForTrailers } [("grpc-status", "0")]).1 =
           ((onTrailers { state_ := State.WaitForTrailers } [("grpc-status", "0")]).1, [],
             LuaReturn.ret (LuaValue.headerMap [("grpc-status", "0")]))))) :=
  ⟨by decide,
    trailers_resolution {} { state_ := State.WaitForTrailers } [("grpc-status", "0")]
      (by decide)⟩

/-- C10: the request and response directions are served by two disjoint
handles: each decode-side pipeline operation leaves the response stream
wrapper untouched, and each encode-side operation leaves the request stream
wrapper untouched. -/
theorem decode_encode_disjoint (f : Filter)
    (script : StreamHandle → StreamHandle × FilterHeadersStatus × List Effect)
    (headers t : HeaderTable) (e : Bool) (c : Chunk) :
    (f.decodeHeaders script headers e).1.response_stream_wrapper_ =
      f.response_stream_wrapper_ ∧
    (f.decodeData c e).1.response_stream_wrapper_ = f.response_stream_wrapper_ ∧
    (f.decodeTrailers t).1.response_stream_wrapper_ = f.response_stream_wrapper_ ∧
    (f.encodeHeaders script headers e).1.request_stream_wrapper_ =
      f.request_stream_wrapper_ ∧
    (f.encodeData c e).1.request_stream_wrapper_ = f.request_stream_wrapper_ ∧
    (f.encodeTrailers t).1.request_stream_wrapper_ = f.request_stream_wrapper_ ∧
    (f.decodeHeaders script headers e).1.destroyed_ = f.destroyed_ ∧
    (f.encodeHeaders script headers e).1.destroyed_ = f.destroyed_ :=
  ⟨rfl, rfl, rfl, rfl, rfl, rfl, rfl, rfl⟩

end Envoy.Http.Filter.Lua
